import Mathlib

/-!
Shallow embedding of the Etsy shop Home Assistant integration
(`custom_components/etsyapp`), covering the update coordinator
(`coordinator.py`) and the HMAC signature client (`hmac_client.py`).

JSON payloads are modelled by `Etsy.JsonVal` (numbers as `Int`: every
numeric field the coordinator reads — counts, quantities — is an integer;
non-integer values such as `review_average` are passed through opaquely
as `JsonVal`).  Python dict `.get` with defaults is modelled by the
`jget*` helpers.  Exceptions are modelled by `Etsy.FetchError`
(`ConfigEntryAuthFailed` vs every other exception, which the coordinator
only ever inspects through its string message).
-/

namespace Etsy

/-- A JSON value, as delivered by the upstream API / proxy. -/
inductive JsonVal where
  | null : JsonVal
  | bool (b : Bool) : JsonVal
  | num (n : Int) : JsonVal
  | str (s : String) : JsonVal
  | arr (elems : List JsonVal) : JsonVal
  | obj (fields : List (String × JsonVal)) : JsonVal

/-- Lookup of a key in a JSON object field list (first occurrence wins,
as in a Python dict where keys are unique). -/
def jlookup (fields : List (String × JsonVal)) (k : String) : Option JsonVal :=
  match fields with
  | [] => none
  | (k', v) :: rest => if k' = k then some v else jlookup rest k

/-- `d.get(k)` on a dict-shaped value: `null` (Python `None`) when the key
is absent or the value is not an object. -/
def jget (j : JsonVal) (k : String) : JsonVal :=
  match j with
  | .obj fields => (jlookup fields k).getD .null
  | _ => .null

/-- `d.get(k, default)`. -/
def jgetD (j : JsonVal) (k : String) (d : JsonVal) : JsonVal :=
  match j with
  | .obj fields => (jlookup fields k).getD d
  | _ => d

/-- `d.get(k, 0)` where the coordinator then uses the value as an integer
(counts, quantities).  Non-numeric values fall back to the default: the
upstream contract only ever puts integers in these fields. -/
def jgetInt (j : JsonVal) (k : String) (d : Int) : Int :=
  match jgetD j k (.num d) with
  | .num n => n
  | _ => d

/-- `d.get(k, [])` where the coordinator then iterates the value as a
list (the `results` arrays).  Non-list values fall back to the default:
the upstream contract only ever puts lists in these fields. -/
def jgetArr (j : JsonVal) (k : String) : List JsonVal :=
  match jgetD j k (.arr []) with
  | .arr l => l
  | _ => []

/-- Whether a JSON object has key `k` (`"k" in d` in Python). -/
def jhasKey (j : JsonVal) (k : String) : Bool :=
  match j with
  | .obj fields => (jlookup fields k).isSome
  | _ => false

/-- `dict(d)` followed by `d[k] = v`: replace the first binding of `k`,
or append the binding when the key is new. -/
def dictSet (fields : List (String × JsonVal)) (k : String) (v : JsonVal) :
    List (String × JsonVal) :=
  match fields with
  | [] => [(k, v)]
  | (k', v') :: rest =>
      if k' = k then (k, v) :: rest else (k', v') :: dictSet rest k v

/-- Does `pat` occur at the start of `l`? -/
def listStartsWith : List Char → List Char → Bool
  | [], _ => true
  | _ :: _, [] => false
  | p :: ps, c :: cs => p = c && listStartsWith ps cs

/-- Does `pat` occur as a contiguous sublist of `l`? -/
def listContainsSub (pat : List Char) : List Char → Bool
  | [] => listStartsWith pat []
  | c :: cs => listStartsWith pat (c :: cs) || listContainsSub pat cs

/-- Python `needle in haystack` on strings. -/
def strContains (haystack needle : String) : Bool :=
  listContainsSub needle.data haystack.data

/-- Python `s.lower()`. -/
def lowerStr (s : String) : String :=
  ⟨s.data.map Char.toLower⟩

/-- Exceptions crossing the coordinator's internal boundaries.
`authFailed` models `ConfigEntryAuthFailed` (matched by type);
`updateFailed` models `UpdateFailed` and every other exception kind,
which the coordinator distinguishes only by `str(err)`; its `cause`
field records an explicit `raise ... from err` chain. -/
inductive FetchError where
  | authFailed (msg : String) : FetchError
  | updateFailed (msg : String) (cause : Option FetchError) : FetchError

/-- `str(err)` (a chained `__cause__` does not appear in `str`). -/
def FetchError.msg : FetchError → String
  | .authFailed m => m
  | .updateFailed m _ => m

/-- `isinstance(err, ConfigEntryAuthFailed)`. -/
def FetchError.isAuth : FetchError → Bool
  | .authFailed _ => true
  | .updateFailed _ _ => false

/-- `coordinator.py` lines 129-139: classification of a failed cycle as
temporary, by substring inspection of the lowercased error string. -/
def isTransientMsg (m : String) : Bool :=
  let s := lowerStr m
  strContains s "rate limit" || strContains s "429" ||
  strContains s "token" || strContains s "refresh" ||
  strContains s "timeout" || strContains s "connection"

/-- `coordinator.py` line 166: classification of an error as a rate-limit
error inside `_fetch_with_retry`. -/
def isRateLimitMsg (m : String) : Bool :=
  let s := lowerStr m
  strContains s "429" || strContains s "rate limit" ||
  strContains s "too many requests"

/-- The combined data dict published by a cycle (`coordinator.py` lines
231-238 / 462-469): keys `shop`, `listings`, `transactions`,
`listings_count`, `transactions_count`, `last_updated`. -/
structure Snapshot where
  shop : JsonVal
  listings : List JsonVal
  transactions : List JsonVal
  listings_count : Int
  transactions_count : Int
  last_updated : String

/-- An HTTP response as seen by the coordinator: status code, parsed JSON
body, raw text, and the `Retry-After` header when present.  (The model
assumes the body of a consumed response parses as JSON; a parse failure
would surface as just another wrapped exception.) -/
structure HttpResponse where
  status : Nat
  body : JsonVal
  text : String
  retryAfter : Option String

/-- The error `aiohttp` `response.raise_for_status()` raises for a
status >= 400: its message starts with the status code
(`"401, message='...'"`). -/
def statusError (r : HttpResponse) : FetchError :=
  .updateFailed (toString r.status ++ ", message=" ++ r.text) none

/-- `coordinator.py` lines 412-414 etc.: the rate-limit error message,
using the `Retry-After` header with default `"60"`. -/
def rateLimitRetryMsg (r : HttpResponse) : String :=
  "Rate limit exceeded (429). Retry after " ++ r.retryAfter.getD "60" ++ " seconds"

/-- `coordinator.py` lines 419-427: the shop endpoint returns either a
bare object or a `{results:[...]}` wrapper; normalize to a single shop
object (first element if wrapped-with-a-list, the object itself
otherwise, empty object if not a dict at all). -/
def normalizeShopPayload (raw : JsonVal) : JsonVal :=
  match raw with
  | .obj fields =>
      match jlookup fields "results" with
      | some (.arr (x :: _)) => x
      | some (.arr []) => .obj []
      | _ => .obj fields
  | _ => .obj []

/-- The three upstream responses one direct-mode fetch consumes
(`GET /shops/{id}`, `.../listings/active`, `.../transactions`). -/
structure DirectEnv where
  shopResp : HttpResponse
  listingsResp : HttpResponse
  transactionsResp : HttpResponse

/-- `_fetch_direct`, HTTP portion (`coordinator.py` lines 392-474): the
body of the `try` block, entered once a valid access token is in hand.
Classifies each response (401 on the shop call, 429 on every call,
`raise_for_status` otherwise) and combines the three payloads into the
published dict. -/
def fetchDirectBody (env : DirectEnv) (now : String) : Except FetchError Snapshot :=
  let sr := env.shopResp
  if sr.status = 401 then
    .error (.authFailed "Authentication failed. Please re-authenticate.")
  else if sr.status = 429 then
    .error (.updateFailed (rateLimitRetryMsg sr) none)
  else if 400 ≤ sr.status then
    .error (statusError sr)
  else
    let shop_data := normalizeShopPayload sr.body
    let lr := env.listingsResp
    if lr.status = 429 then
      .error (.updateFailed (rateLimitRetryMsg lr) none)
    else if 400 ≤ lr.status then
      .error (statusError lr)
    else
      let tr := env.transactionsResp
      if tr.status = 429 then
        .error (.updateFailed (rateLimitRetryMsg tr) none)
      else if 400 ≤ tr.status then
        .error (statusError tr)
      else
        .ok { shop := shop_data,
              listings := jgetArr lr.body "results",
              transactions := jgetArr tr.body "results",
              listings_count := jgetInt lr.body "count" 0,
              transactions_count := jgetInt tr.body "count" 0,
              last_updated := now }

/-- `_fetch_direct` (`coordinator.py` lines 476-480): re-raise
`ConfigEntryAuthFailed` unchanged; wrap any other exception as
`UpdateFailed("Error fetching data from Etsy API: ...") from err`. -/
def fetchDirect (env : DirectEnv) (now : String) : Except FetchError Snapshot :=
  match fetchDirectBody env now with
  | .ok d => .ok d
  | .error e =>
      if e.isAuth then .error e
      else .error (.updateFailed ("Error fetching data from Etsy API: " ++ e.msg) (some e))

/-- `_fetch_shop_info_proxy` (`coordinator.py` lines 248-267): 429 and
non-200 raise; 200 yields the parsed body. -/
def fetchShopInfoProxy (r : HttpResponse) : Except FetchError JsonVal :=
  if r.status = 429 then
    .error (.updateFailed ("Rate limit exceeded (429): " ++ r.text) none)
  else if r.status ≠ 200 then
    .error (.updateFailed ("Failed to get shop info: " ++ r.text) none)
  else .ok r.body

/-- `_fetch_listings_proxy` (`coordinator.py` lines 269-289): a non-200
response is swallowed — the call returns `{"results": [], "count": 0}`
instead of failing. -/
def fetchListingsProxy (r : HttpResponse) : JsonVal :=
  if r.status ≠ 200 then .obj [("results", .arr []), ("count", .num 0)]
  else r.body

/-- `_fetch_transactions_proxy` (`coordinator.py` lines 291-308): a
non-200 response is swallowed — the call returns `{"results": []}`. -/
def fetchTransactionsProxy (r : HttpResponse) : JsonVal :=
  if r.status ≠ 200 then .obj [("results", .arr [])]
  else r.body

/-- The proxy responses one proxy-mode fetch consumes (modelling the
configured case: proxy url, api key, HMAC secret and shop id present, so
the bootstrap `GET /api/v1/shops` call is skipped). -/
structure ProxyEnv where
  shopInfoResp : HttpResponse
  listingsResp : HttpResponse
  transactionsResp : HttpResponse

/-- `_fetch_via_proxy`, body of the `try` (`coordinator.py` lines
226-243): fetch the three payloads and combine.  Note
`transactions_count` here is `len(results)` while `listings_count` is
the payload's `count` field. -/
def fetchViaProxyBody (env : ProxyEnv) (now : String) : Except FetchError Snapshot :=
  match fetchShopInfoProxy env.shopInfoResp with
  | .error e => .error e
  | .ok shop_info =>
      let listings_data := fetchListingsProxy env.listingsResp
      let transactions_data := fetchTransactionsProxy env.transactionsResp
      .ok { shop := shop_info,
            listings := jgetArr listings_data "results",
            listings_count := jgetInt listings_data "count" 0,
            transactions := jgetArr transactions_data "results",
            transactions_count := Int.ofNat (jgetArr transactions_data "results").length,
            last_updated := now }

/-- `_fetch_via_proxy` (`coordinator.py` lines 244-246): any exception is
wrapped as `UpdateFailed("Failed to fetch data via proxy: ...")`. -/
def fetchViaProxy (env : ProxyEnv) (now : String) : Except FetchError Snapshot :=
  match fetchViaProxyBody env now with
  | .ok d => .ok d
  | .error e =>
      .error (.updateFailed ("Failed to fetch data via proxy: " ++ e.msg) none)

/-- Events fired on the Home Assistant bus by `_check_for_changes`
(`etsyapp_new_order`, `etsyapp_new_review`, `etsyapp_low_stock`), with
their payload fields in source order. -/
inductive Event where
  | newOrder (deviceId : String) (shopName : JsonVal) (newOrders : Int) : Event
  | newReview (deviceId : String) (shopName : JsonVal) (newReviews : Int)
      (averageRating : JsonVal) : Event
  | lowStock (deviceId : String) (shopName : JsonVal) (listingId : JsonVal)
      (listingTitle : JsonVal) (quantity : Int) (threshold : Int) : Event

def Event.isNewOrder : Event → Bool
  | .newOrder _ _ _ => true
  | _ => false

def Event.isNewReview : Event → Bool
  | .newReview _ _ _ _ => true
  | _ => false

def Event.isLowStock : Event → Bool
  | .lowStock _ _ _ _ _ _ => true
  | _ => false

/-- The coordinator's mutable bookkeeping (`coordinator.py` lines 45-54):
change-detection counters and the retry / cache state.  All counters
start at zero, the cache starts empty. -/
structure CoordState where
  retry_count : Nat
  consecutive_failures : Nat
  last_successful_data : Option Snapshot
  prev_transactions_count : Int
  prev_review_count : Int

/-- The freshly constructed coordinator state (`__init__`). -/
def initialCoordState : CoordState :=
  { retry_count := 0, consecutive_failures := 0, last_successful_data := none,
    prev_transactions_count := 0, prev_review_count := 0 }

/-- The low-stock loop of `_check_for_changes` (`coordinator.py` lines
589-607): one `low_stock` event per listing whose quantity is positive
and at most the threshold, in listing order. -/
def lowStockEvents (deviceId : String) (shopName : JsonVal) (stockThreshold : Int) :
    List JsonVal → List Event
  | [] => []
  | listing :: rest =>
      let quantity := jgetInt listing "quantity" 0
      if 0 < quantity ∧ quantity ≤ stockThreshold then
        Event.lowStock deviceId shopName (jget listing "listing_id")
            (jget listing "title") quantity stockThreshold ::
          lowStockEvents deviceId shopName stockThreshold rest
      else
        lowStockEvents deviceId shopName stockThreshold rest

/-- `_check_for_changes` (`coordinator.py` lines 544-607).  `device` is
the device-registry lookup result: when it is `none` the method returns
early, firing nothing and updating nothing.  `options` is the config
entry's options record (`stock_threshold` read from it, default 5).
Returns the updated state and the fired events in firing order. -/
def checkForChanges (st : CoordState) (device : Option String) (options : JsonVal)
    (data : Snapshot) : CoordState × List Event :=
  match device with
  | none => (st, [])
  | some deviceId =>
      let shop := data.shop
      let currentTransactions := data.transactions_count
      let orderEvents :=
        if currentTransactions > st.prev_transactions_count ∧
            st.prev_transactions_count > 0 then
          [Event.newOrder deviceId (jget shop "shop_name")
            (currentTransactions - st.prev_transactions_count)]
        else []
      let currentReviews := jgetInt shop "review_count" 0
      let reviewEvents :=
        if currentReviews > st.prev_review_count ∧ st.prev_review_count > 0 then
          [Event.newReview deviceId (jget shop "shop_name")
            (currentReviews - st.prev_review_count)
            (jgetD shop "review_average" (.num 0))]
        else []
      let stockEvents := lowStockEvents deviceId (jget shop "shop_name")
        (jgetInt options "stock_threshold" 5) data.listings
      ({ st with prev_transactions_count := currentTransactions,
                 prev_review_count := currentReviews },
       orderEvents ++ reviewEvents ++ stockEvents)

/-- `self._base_delay = 1` (seconds). -/
def baseDelay : ℚ := 1

/-- `self._max_retries = 5`. -/
def maxRetries : Nat := 5

/-- `coordinator.py` line 185. -/
def retryExhaustedMsg : String :=
  "Rate limit exceeded after " ++ toString maxRetries ++ " retries"

/-- The outcome of one `_fetch_with_retry` run: the returned value or the
raised error, the sequence of `asyncio.sleep` durations (seconds, in
order), and the final value of `self._retry_count`. -/
structure RetryOutcome where
  result : Except FetchError Snapshot
  delays : List ℚ
  retry_count : Nat

/-- The loop of `_fetch_with_retry` (`coordinator.py` lines 156-191).
`attempts a` is what `fetch_func()` does on 0-based attempt `a`;
`jitter a` is the value `random.uniform(0, delay * 0.1)` drew on attempt
`a`; `fuel` counts the loop iterations remaining (entered with
`maxRetries`), `rc` carries `self._retry_count`, `lastErr` carries
`last_error`.  The `fuel = 0` case is line 191, unreachable from the
top-level entry because the last iteration always returns or raises. -/
def fetchWithRetryGo (attempts : Nat → Except FetchError Snapshot) (jitter : Nat → ℚ) :
    Nat → Nat → Nat → Option FetchError → RetryOutcome
  | 0, _, rc, lastErr =>
      ⟨.error (.updateFailed ("Failed after " ++ toString maxRetries ++ " attempts: " ++
          (match lastErr with | some e => e.msg | none => "None")) lastErr),
       [], rc⟩
  | fuel + 1, attempt, rc, _ =>
      match attempts attempt with
      | .ok d => ⟨.ok d, [], rc⟩
      | .error e =>
          if isRateLimitMsg e.msg then
            let rc' := attempt + 1
            if rc' < maxRetries then
              let delay := baseDelay * 2 ^ attempt
              let actualDelay := delay + jitter attempt
              let rest := fetchWithRetryGo attempts jitter fuel (attempt + 1) rc' (some e)
              ⟨rest.result, actualDelay :: rest.delays, rest.retry_count⟩
            else
              ⟨.error (.updateFailed retryExhaustedMsg (some e)), [], rc'⟩
          else
            ⟨.error e, [], rc⟩

/-- `_fetch_with_retry(fetch_func)` entered with the coordinator's
current `_retry_count` equal to `rc0`. -/
def fetchWithRetry (attempts : Nat → Except FetchError Snapshot) (jitter : Nat → ℚ)
    (rc0 : Nat) : RetryOutcome :=
  fetchWithRetryGo attempts jitter maxRetries 0 rc0 none

/-- The fetch step of one update cycle as `_async_update_data` sees it:
`_fetch_with_retry` around the mode's fetcher.  On success the fetcher
itself cached its result (`coordinator.py` lines 241 / 472) — modelled
here by setting `last_successful_data`, which line 118 then overwrites
with the same value; `_retry_count` carries the loop's final value. -/
def retryFetchStep (attempts : Nat → Except FetchError Snapshot) (jitter : Nat → ℚ)
    (st : CoordState) : CoordState × Except FetchError Snapshot :=
  let out := fetchWithRetry attempts jitter st.retry_count
  match out.result with
  | .ok d =>
      ({ st with retry_count := out.retry_count, last_successful_data := some d }, .ok d)
  | .error e =>
      ({ st with retry_count := out.retry_count }, .error e)

/-- `_async_update_data` (`coordinator.py` lines 104-152), parametric in
the fetch step.  On success (the returned dict is always a non-empty
dict, hence truthy) run change detection, reset `_retry_count` and
`_consecutive_failures`, store the snapshot.  `ConfigEntryAuthFailed`
re-raises before any bookkeeping.  Any other failure increments
`_consecutive_failures`, then either republishes the cached snapshot
(temporary failure with a cache) or raises `UpdateFailed`.  Returns
(new state, reported result, fired events). -/
def asyncUpdateData (st : CoordState) (device : Option String) (options : JsonVal)
    (fetch : CoordState → CoordState × Except FetchError Snapshot) :
    CoordState × Except FetchError Snapshot × List Event :=
  match fetch st with
  | (st1, .ok data) =>
      let checked := checkForChanges st1 device options data
      ({ checked.1 with retry_count := 0, last_successful_data := some data,
                        consecutive_failures := 0 },
       .ok data, checked.2)
  | (st1, .error e) =>
      if e.isAuth then (st1, .error e, [])
      else
        let st2 := { st1 with consecutive_failures := st1.consecutive_failures + 1 }
        if isTransientMsg e.msg then
          match st2.last_successful_data with
          | some cached => (st2, .ok cached, [])
          | none =>
              (st2, .error (.updateFailed ("Failed to update data: " ++ e.msg) (some e)), [])
        else
          (st2, .error (.updateFailed ("Failed to update data: " ++ e.msg) (some e)), [])

/-- One full update cycle with the retrying fetch step plugged in. -/
def updateCycle (st : CoordState) (device : Option String) (options : JsonVal)
    (attempts : Nat → Except FetchError Snapshot) (jitter : Nat → ℚ) :
    CoordState × Except FetchError Snapshot × List Event :=
  asyncUpdateData st device options (retryFetchStep attempts jitter)

/-- Python truthiness of a JSON value (`if not x`). -/
def jtruthy : JsonVal → Bool
  | .null => false
  | .bool b => b
  | .num n => n ≠ 0
  | .str s => s ≠ ""
  | .arr l => !l.isEmpty
  | .obj f => !f.isEmpty

/-- The environment one `_manual_token_refresh` call sees: the token
endpoint's response and the current Unix time (`time.time()`, modelled
as whole seconds). -/
structure RefreshEnv where
  resp : HttpResponse
  now : Int

/-- `_manual_token_refresh` (`coordinator.py` lines 482-542).  `config`
is the config entry's data dict.  Returns the (possibly updated) config
data and the returned access token (`none` models `return None`; a
missing `access_token` key in the response raises `KeyError` before the
entry is updated, caught at line 540).  The `async_start_reauth` side
effect on missing credentials is outside this model. -/
def manualTokenRefresh (config : List (String × JsonVal)) (env : RefreshEnv) :
    List (String × JsonVal) × Option JsonVal :=
  let token_data := jgetD (.obj config) "token" (.obj [])
  let refresh_token := jget token_data "refresh_token"
  if jtruthy refresh_token = false then (config, none)
  else if jtruthy (jget (.obj config) "auth_implementation_client_id") = false ∨
      jtruthy (jget (.obj config) "client_secret") = false then (config, none)
  else if env.resp.status ≠ 200 then (config, none)
  else if jhasKey env.resp.body "access_token" = false then (config, none)
  else
    let body := env.resp.body
    let new_token : JsonVal := .obj [
      ("access_token", jget body "access_token"),
      ("refresh_token", jgetD body "refresh_token" refresh_token),
      ("expires_in", jgetD body "expires_in" (.num 3600)),
      ("expires_at", .num (env.now + jgetInt body "expires_in" 3600)),
      ("token_type", .str "Bearer")]
    (dictSet config "token" new_token, some (jget body "access_token"))

/-- `s.upper()`. -/
def upperStr (s : String) : String :=
  ⟨s.data.map Char.toUpper⟩

/-- `hmac_client.py` lines 56-60: keep only the security-relevant
headers, matched on the lowercased key. -/
def filterSecurityHeaders (headers : List (String × String)) :
    List (String × String) :=
  headers.filter (fun kv =>
    lowerStr kv.1 = "content-type" || lowerStr kv.1 = "content-length" ||
    lowerStr kv.1 = "host")

/-- Stable insertion of a header into a key-sorted list. -/
def insertSortedHeader (p : String × String) :
    List (String × String) → List (String × String)
  | [] => [p]
  | q :: rest => if p.1 ≤ q.1 then p :: q :: rest else q :: insertSortedHeader p rest

/-- Stable sort of headers by key (code-point order, as Python's
`sorted` on str keys). -/
def sortHeaders : List (String × String) → List (String × String)
  | [] => []
  | p :: rest => insertSortedHeader p (sortHeaders rest)

/-- `json.dumps(security_headers, sort_keys=True)` for the string-valued
header dicts this client passes (no characters needing JSON escaping). -/
def jsonDumpsSorted (pairs : List (String × String)) : String :=
  "\x7b" ++ String.intercalate ", "
    ((sortHeaders pairs).map (fun kv => "\"" ++ kv.1 ++ "\": \"" ++ kv.2 ++ "\"")) ++
  "\x7d"

/-- `HMACClient.__init__` (`hmac_client.py` lines 13-21): the two fields
set at construction and never mutated (`secret` stands for the UTF-8
bytes of the secret string). -/
structure HMACClient where
  api_key : String
  secret : String

/-- The canonical string to sign (`hmac_client.py` lines 44-65):
`METHOD|PATH|TIMESTAMP|API_KEY|BODY`, with one trailing component of
JSON-serialized sorted security headers appended only when headers are
passed and the security filter keeps at least one of them.  (Python's
outer `if headers:` also skips an empty dict; that case coincides with
the filter keeping nothing.) -/
def canonicalMessage (c : HMACClient) (method path timestamp body : String)
    (headers : Option (List (String × String))) : String :=
  let parts := [upperStr method, path, timestamp, c.api_key, body]
  let parts :=
    match headers with
    | none => parts
    | some hs =>
        let security := filterSecurityHeaders hs
        if security.isEmpty then parts
        else parts ++ [jsonDumpsSorted security]
  String.intercalate "|" parts

/-- `HMACClient.generate_signature` (`hmac_client.py` lines 23-75).
`mac secret message` stands for
`base64.b64encode(hmac.new(secret, message.encode(), sha256).digest()).decode()`
— a pure function of its two arguments supplied by the standard library;
`now` is `int(time.time())`.  Returns `(signature, timestamp)`. -/
def generate_signature (c : HMACClient) (mac : String → String → String) (now : Int)
    (method path body : String) (headers : Option (List (String × String))) :
    String × String :=
  let timestamp := toString now
  (mac c.secret (canonicalMessage c method path timestamp body headers), timestamp)

end Etsy

namespace Etsy

/-- Is the value a JSON object (`isinstance(x, dict)`)? -/
def JsonVal.isObj : JsonVal → Bool
  | .obj _ => true
  | _ => false

/-- A payload of the wrapped shape the shop normalization unwraps: an
object whose `results` key holds a list (`"results" in raw and
isinstance(raw["results"], list)`). -/
def isWrappedShopPayload : JsonVal → Bool
  | .obj fields =>
      match jlookup fields "results" with
      | some (.arr _) => true
      | _ => false
  | _ => false

/-- The low-stock guard of `_check_for_changes`
(`quantity > 0 and quantity <= stock_threshold`). -/
def lowStockQualifies (stockThreshold : Int) (listing : JsonVal) : Bool :=
  decide (0 < jgetInt listing "quantity" 0 ∧
          jgetInt listing "quantity" 0 ≤ stockThreshold)

/-! Concrete sample values, used by the witness and counterexample
theorems to evaluate the model on explicit inputs. -/

def sampleSnapshot : Snapshot :=
  { shop := .obj [("shop_name", .str "TestShop"), ("review_count", .num 4),
                  ("review_average", .num 5)],
    listings := [], transactions := [], listings_count := 0, transactions_count := 7,
    last_updated := "2024-01-01 00:00:00.000000" }

def sampleRateLimitErr : FetchError :=
  .updateFailed "Rate limit exceeded (429). Retry after 60 seconds" none

def sampleAuthErr : FetchError :=
  .authFailed "Authentication failed. Please re-authenticate."

def zeroJitter : Nat → ℚ := fun _ => 0

def alwaysRateLimited : Nat → Except FetchError Snapshot :=
  fun _ => .error sampleRateLimitErr

def threeRateLimitsThenOk : Nat → Except FetchError Snapshot :=
  fun a => if a < 3 then .error sampleRateLimitErr else .ok sampleSnapshot

def alwaysAuthFailed : Nat → Except FetchError Snapshot :=
  fun _ => .error sampleAuthErr

def cachedState : CoordState :=
  { initialCoordState with last_successful_data := some sampleSnapshot }

def sampleListingLow : JsonVal :=
  .obj [("listing_id", .num 11), ("title", .str "Low"), ("quantity", .num 3)]

def sampleListingZero : JsonVal :=
  .obj [("listing_id", .num 12), ("title", .str "Zero"), ("quantity", .num 0)]

def sampleListingHigh : JsonVal :=
  .obj [("listing_id", .num 13), ("title", .str "High"), ("quantity", .num 9)]

def sampleData : Snapshot :=
  { shop := .obj [("shop_name", .str "TestShop"), ("review_count", .num 6),
                  ("review_average", .num 5)],
    listings := [sampleListingLow, sampleListingZero, sampleListingHigh],
    transactions := [], listings_count := 3, transactions_count := 10,
    last_updated := "t1" }

def sampleOptions : JsonVal := .obj [("stock_threshold", .num 5)]

def samplePrevState : CoordState :=
  { retry_count := 0, consecutive_failures := 0, last_successful_data := none,
    prev_transactions_count := 2, prev_review_count := 4 }

def resp200 (b : JsonVal) : HttpResponse :=
  { status := 200, body := b, text := "", retryAfter := none }

def resp500 : HttpResponse :=
  { status := 500, body := .null, text := "server error", retryAfter := none }

def resp401 : HttpResponse :=
  { status := 401, body := .null, text := "unauthorized", retryAfter := none }

def sampleProxyEnvListingsDown : ProxyEnv :=
  { shopInfoResp := resp200 (.obj [("shop_id", .num 1)]),
    listingsResp := resp500,
    transactionsResp := resp200 (.obj [("results", .arr [])]) }

def sampleDirectEnvNoCount : DirectEnv :=
  { shopResp := resp200 (.obj [("shop_id", .num 1)]),
    listingsResp := resp200 (.obj [("results", .arr []), ("count", .num 0)]),
    transactionsResp := resp200 (.obj [("results", .arr [.obj [("receipt_id", .num 5)]])]) }

def sampleDirectEnv401Listings : DirectEnv :=
  { shopResp := resp200 (.obj [("shop_id", .num 1)]),
    listingsResp := resp401,
    transactionsResp := resp200 (.obj [("results", .arr [])]) }

def sampleConfig : List (String × JsonVal) :=
  [("auth_implementation_client_id", .str "cid"), ("client_secret", .str "sec"),
   ("shop_id", .str "1"),
   ("token", .obj [("access_token", .str "old-at"), ("refresh_token", .str "rt"),
                   ("expires_at", .num 100)])]

def sampleRefreshEnv : RefreshEnv :=
  { resp := { status := 200,
              body := .obj [("access_token", .str "new-at"), ("expires_in", .num 7200)],
              text := "", retryAfter := none },
    now := 1000 }

end Etsy
namespace Etsy

/-! ## Helper lemmas -/

theorem normalize_not_wrapped (fields : List (String × JsonVal))
    (h : isWrappedShopPayload (.obj fields) = false) :
    normalizeShopPayload (.obj fields) = .obj fields := by
  unfold isWrappedShopPayload at h
  unfold normalizeShopPayload
  dsimp only at h ⊢
  cases hres : jlookup fields "results" with
  | none => simp [hres]
  | some v =>
      cases v with
      | arr l => rw [hres] at h; simp at h
      | null => simp [hres]
      | bool b => simp [hres]
      | num n => simp [hres]
      | str s => simp [hres]
      | obj f => simp [hres]

theorem normalize_wrapped_cons (fields : List (String × JsonVal)) (x : JsonVal)
    (l : List JsonVal) (h : jlookup fields "results" = some (.arr (x :: l))) :
    normalizeShopPayload (.obj fields) = x := by
  unfold normalizeShopPayload
  dsimp only
  rw [h]

theorem normalize_wrapped_nil (fields : List (String × JsonVal))
    (h : jlookup fields "results" = some (.arr [])) :
    normalizeShopPayload (.obj fields) = .obj [] := by
  unfold normalizeShopPayload
  dsimp only
  rw [h]

theorem normalize_not_obj (j : JsonVal) (h : j.isObj = false) :
    normalizeShopPayload j = .obj [] := by
  cases j <;> simp [JsonVal.isObj] at h ⊢ <;> rfl

theorem normalize_wrap_singleton (b : JsonVal) :
    normalizeShopPayload (.obj [("results", .arr [b])]) = b := by
  rfl

end Etsy
namespace Etsy

theorem normalize_wrap_of_bare (b : JsonVal) (hobj : b.isObj = true)
    (hw : isWrappedShopPayload b = false) :
    normalizeShopPayload (.obj [("results", .arr [b])]) = normalizeShopPayload b := by
  rw [normalize_wrap_singleton]
  cases b with
  | obj f => exact (normalize_not_wrapped f hw).symm
  | null => simp [JsonVal.isObj] at hobj
  | bool x => simp [JsonVal.isObj] at hobj
  | num x => simp [JsonVal.isObj] at hobj
  | str x => simp [JsonVal.isObj] at hobj
  | arr x => simp [JsonVal.isObj] at hobj

theorem fetchDirect_shop_body_congr (env : DirectEnv) (now : String) (b : JsonVal)
    (h : normalizeShopPayload b = normalizeShopPayload env.shopResp.body) :
    fetchDirect { env with shopResp := { env.shopResp with body := b } } now =
      fetchDirect env now := by
  unfold fetchDirect fetchDirectBody
  dsimp only
  rw [h]
  simp [rateLimitRetryMsg, statusError]

end Etsy
namespace Etsy

/-! ## Claim theorems -/

/-- C8: Shop-payload normalization: an object not of the results-list
wrapper shape normalizes to itself; a `{results:[...]}` wrapper
normalizes to the first element of the list (the empty object when the
list is empty); a non-object normalizes to the empty object; and the
bare and wrapped forms of the same bare shop object produce the same
shop value — including in the snapshot published by a direct-mode
fetch. -/
theorem shop_payload_normalization :
    (∀ fields, isWrappedShopPayload (.obj fields) = false →
        normalizeShopPayload (.obj fields) = .obj fields)
  ∧ (∀ fields x l, jlookup fields "results" = some (.arr (x :: l)) →
        normalizeShopPayload (.obj fields) = x)
  ∧ (∀ fields, jlookup fields "results" = some (.arr []) →
        normalizeShopPayload (.obj fields) = .obj [])
  ∧ (∀ j : JsonVal, j.isObj = false → normalizeShopPayload j = .obj [])
  ∧ (∀ b : JsonVal, b.isObj = true → isWrappedShopPayload b = false →
        normalizeShopPayload (.obj [("results", .arr [b])]) = normalizeShopPayload b)
  ∧ (∀ (env : DirectEnv) (now : String), env.shopResp.body.isObj = true →
        isWrappedShopPayload env.shopResp.body = false →
        fetchDirect { env with shopResp := { env.shopResp with
            body := .obj [("results", .arr [env.shopResp.body])] } } now =
          fetchDirect env now) := by
  refine ⟨normalize_not_wrapped, normalize_wrapped_cons, normalize_wrapped_nil,
          normalize_not_obj, normalize_wrap_of_bare, ?_⟩
  intro env now hobj hw
  exact fetchDirect_shop_body_congr env now _ (normalize_wrap_of_bare _ hobj hw)

/-- Witness for C8 at concrete inputs: a bare shop object, its wrapped
form, and a full direct-mode fetch with both forms. -/
theorem shop_payload_normalization_witness :
    normalizeShopPayload (.obj [("shop_id", .num 1)]) = .obj [("shop_id", .num 1)]
  ∧ normalizeShopPayload (.obj [("results", .arr [.obj [("shop_id", .num 1)]])]) =
      .obj [("shop_id", .num 1)]
  ∧ fetchDirect { sampleDirectEnvNoCount with shopResp :=
        { sampleDirectEnvNoCount.shopResp with
          body := .obj [("results", .arr [sampleDirectEnvNoCount.shopResp.body])] } } "t" =
      fetchDirect sampleDirectEnvNoCount "t" :=
  ⟨shop_payload_normalization.1 [("shop_id", .num 1)] (by decide),
   shop_payload_normalization.2.1 [("results", .arr [.obj [("shop_id", .num 1)]])]
     (.obj [("shop_id", .num 1)]) [] rfl,
   shop_payload_normalization.2.2.2.2.2 sampleDirectEnvNoCount "t" (by decide) (by decide)⟩

/-- C9: Signature engine: `generate_signature` returns the pair
`(mac secret MESSAGE, timestamp)` where `mac` stands for base64 of the
HMAC-SHA256 digest, `MESSAGE` is the upper-cased method, path,
timestamp, api_key and body joined with `|`, with one trailing component
of JSON-serialized sorted security headers appended exactly when headers
containing at least one security-relevant key are passed; for fixed
inputs the result is deterministic and depends only on the client's two
immutable fields. -/
theorem signature_engine_canonical (c : HMACClient) (mac : String → String → String)
    (now : Int) (method path body : String) (headers : List (String × String)) :
    (generate_signature c mac now method path body none =
      (mac c.secret (String.intercalate "|"
        [upperStr method, path, toString now, c.api_key, body]), toString now))
  ∧ (filterSecurityHeaders headers ≠ [] →
      generate_signature c mac now method path body (some headers) =
      (mac c.secret (String.intercalate "|"
        [upperStr method, path, toString now, c.api_key, body,
         jsonDumpsSorted (filterSecurityHeaders headers)]), toString now))
  ∧ (filterSecurityHeaders headers = [] →
      generate_signature c mac now method path body (some headers) =
      generate_signature c mac now method path body none)
  ∧ (∀ c2 : HMACClient, c2.api_key = c.api_key → c2.secret = c.secret →
      ∀ h2 : Option (List (String × String)),
        generate_signature c2 mac now method path body h2 =
        generate_signature c mac now method path body h2) := by
  refine ⟨rfl, ?_, ?_, ?_⟩
  · intro hne
    simp [generate_signature, canonicalMessage, List.isEmpty_iff, hne]
  · intro hempty
    simp [generate_signature, canonicalMessage, hempty]
  · intro c2 hk hs h2
    obtain ⟨k2, s2⟩ := c2
    obtain ⟨k1, s1⟩ := c
    simp only at hk hs
    subst hk
    subst hs
    rfl

/-- Witness for C9 at concrete inputs, with a concrete pure stand-in
for the MAC: the security-relevant header is kept and serialized, the
non-security header is dropped, the method is upper-cased. -/
theorem signature_engine_canonical_witness :
    generate_signature ⟨"key", "secret"⟩ (fun s m => s ++ ":" ++ m) 17 "get" "/p" ""
        (some [("Content-Type", "application/json"), ("X-Req", "7")]) =
      ("secret:GET|/p|17|key||\x7b\"Content-Type\": \"application/json\"\x7d", "17") := by
  rw [(signature_engine_canonical ⟨"key", "secret"⟩ (fun s m => s ++ ":" ++ m) 17 "get" "/p" ""
        [("Content-Type", "application/json"), ("X-Req", "7")]).2.1 (by decide)]
  decide

end Etsy
namespace Etsy

theorem jlookup_dictSet_self (fields : List (String × JsonVal)) (k : String) (v : JsonVal) :
    jlookup (dictSet fields k v) k = some v := by
  induction fields with
  | nil => simp [dictSet, jlookup]
  | cons p rest ih =>
      obtain ⟨k', v'⟩ := p
      by_cases h : k' = k
      · simp [dictSet, h, jlookup]
      · simp [dictSet, h, jlookup, ih]

theorem jlookup_dictSet_ne (fields : List (String × JsonVal)) (k : String) (v : JsonVal)
    (k' : String) (h : k' ≠ k) :
    jlookup (dictSet fields k v) k' = jlookup fields k' := by
  induction fields with
  | nil => simp [dictSet, jlookup, Ne.symm h]
  | cons p rest ih =>
      obtain ⟨a, b⟩ := p
      by_cases ha : a = k
      · simp [dictSet, ha, jlookup, Ne.symm h]
      · simp [dictSet, ha, jlookup, ih]

/-- C10: After a successful manual token refresh (HTTP 200 with an
`access_token` in the body), the persisted `token` dict carries the
response's `access_token`, the response's `refresh_token` when present
and otherwise the previously stored one, and an absolute
`expires_at = now + expires_in` (response value, default 3600); every
configuration key other than `token` is unchanged; the new access token
is returned. -/
theorem manual_token_refresh_persists (config : List (String × JsonVal)) (env : RefreshEnv)
    (h1 : jtruthy (jget (jgetD (.obj config) "token" (.obj [])) "refresh_token") = true)
    (h2 : jtruthy (jget (.obj config) "auth_implementation_client_id") = true)
    (h3 : jtruthy (jget (.obj config) "client_secret") = true)
    (h4 : env.resp.status = 200)
    (h5 : jhasKey env.resp.body "access_token" = true) :
    jlookup (manualTokenRefresh config env).1 "token" = some (.obj [
      ("access_token", jget env.resp.body "access_token"),
      ("refresh_token", jgetD env.resp.body "refresh_token"
          (jget (jgetD (.obj config) "token" (.obj [])) "refresh_token")),
      ("expires_in", jgetD env.resp.body "expires_in" (.num 3600)),
      ("expires_at", .num (env.now + jgetInt env.resp.body "expires_in" 3600)),
      ("token_type", .str "Bearer")])
  ∧ (∀ k, k ≠ "token" → jlookup (manualTokenRefresh config env).1 k = jlookup config k)
  ∧ (manualTokenRefresh config env).2 = some (jget env.resp.body "access_token") := by
  unfold manualTokenRefresh
  simp only [h1, h2, h3, h4, h5]
  simp only [Bool.true_eq_false, if_false, false_or, or_self, ne_eq, not_true_eq_false]
  refine ⟨?_, ?_, ?_⟩
  · simp [jlookup_dictSet_self]
  · intro k hk
    simp [jlookup_dictSet_ne _ _ _ _ hk]
  · simp

end Etsy
namespace Etsy

/-- Witness for C10: a concrete refresh whose response has a new access
token and `expires_in` 7200 but no `refresh_token`: the stored refresh
token `"rt"` is kept, `expires_at` becomes 1000 + 7200, the sibling
configuration key `client_secret` is untouched. -/
theorem manual_token_refresh_persists_witness :
    jlookup (manualTokenRefresh sampleConfig sampleRefreshEnv).1 "token" = some (.obj [
      ("access_token", .str "new-at"),
      ("refresh_token", .str "rt"),
      ("expires_in", .num 7200),
      ("expires_at", .num 8200),
      ("token_type", .str "Bearer")])
  ∧ jlookup (manualTokenRefresh sampleConfig sampleRefreshEnv).1 "client_secret" =
      some (.str "sec")
  ∧ (manualTokenRefresh sampleConfig sampleRefreshEnv).2 = some (.str "new-at") := by
  have h := manual_token_refresh_persists sampleConfig sampleRefreshEnv
    (by decide) (by decide) (by decide) rfl (by decide)
  refine ⟨?_, ?_, ?_⟩
  · rw [h.1]; rfl
  · rw [h.2.1 "client_secret" (by decide)]; rfl
  · rw [h.2.2]; rfl

end Etsy
namespace Etsy

theorem jgetInt_of_not_hasKey (j : JsonVal) (k : String) (d : Int)
    (h : jhasKey j k = false) : jgetInt j k d = d := by
  cases j with
  | obj fields =>
      unfold jhasKey at h
      unfold jgetInt jgetD
      dsimp only at h ⊢
      cases hres : jlookup fields k with
      | none => simp [hres]
      | some v => rw [hres] at h; simp at h
  | null => rfl
  | bool b => rfl
  | num n => rfl
  | str s => rfl
  | arr l => rfl

theorem lowStockEvents_eq_filterMap (d : String) (s : JsonVal) (θ : Int)
    (L : List JsonVal) :
    lowStockEvents d s θ L =
      (L.filter (lowStockQualifies θ)).map
        (fun l => Event.lowStock d s (jget l "listing_id") (jget l "title")
          (jgetInt l "quantity" 0) θ) := by
  induction L with
  | nil => rfl
  | cons x xs ih =>
      by_cases h : 0 < jgetInt x "quantity" 0 ∧ jgetInt x "quantity" 0 ≤ θ
      · simp [lowStockEvents, h, lowStockQualifies, ih]
      · simp [lowStockEvents, h, lowStockQualifies, ih]

theorem filter_newOrder_lowStockEvents (d : String) (s : JsonVal) (θ : Int)
    (L : List JsonVal) :
    (lowStockEvents d s θ L).filter Event.isNewOrder = [] := by
  induction L with
  | nil => rfl
  | cons x xs ih =>
      by_cases h : 0 < jgetInt x "quantity" 0 ∧ jgetInt x "quantity" 0 ≤ θ
      · simp [lowStockEvents, h, Event.isNewOrder, ih]
      · simp [lowStockEvents, h, ih]

theorem filter_newReview_lowStockEvents (d : String) (s : JsonVal) (θ : Int)
    (L : List JsonVal) :
    (lowStockEvents d s θ L).filter Event.isNewReview = [] := by
  induction L with
  | nil => rfl
  | cons x xs ih =>
      by_cases h : 0 < jgetInt x "quantity" 0 ∧ jgetInt x "quantity" 0 ≤ θ
      · simp [lowStockEvents, h, Event.isNewReview, ih]
      · simp [lowStockEvents, h, ih]

theorem filter_lowStock_lowStockEvents (d : String) (s : JsonVal) (θ : Int)
    (L : List JsonVal) :
    (lowStockEvents d s θ L).filter Event.isLowStock = lowStockEvents d s θ L := by
  induction L with
  | nil => rfl
  | cons x xs ih =>
      by_cases h : 0 < jgetInt x "quantity" 0 ∧ jgetInt x "quantity" 0 ≤ θ
      · simp [lowStockEvents, h, Event.isLowStock, ih]
      · simp [lowStockEvents, h, ih]

theorem mem_lowStockEvents_bounds (d : String) (s : JsonVal) (θ : Int)
    (L : List JsonVal) (d' : String) (s' lid t : JsonVal) (q θ' : Int)
    (h : Event.lowStock d' s' lid t q θ' ∈ lowStockEvents d s θ L) :
    0 < q ∧ q ≤ θ' := by
  induction L with
  | nil => simp [lowStockEvents] at h
  | cons x xs ih =>
      unfold lowStockEvents at h
      by_cases hc : 0 < jgetInt x "quantity" 0 ∧ jgetInt x "quantity" 0 ≤ θ
      · rw [if_pos hc] at h
        rcases List.mem_cons.mp h with heq | hmem
        · injection heq with e1 e2 e3 e4 e5 e6
          subst e5
          subst e6
          exact hc
        · exact ih hmem
      · rw [if_neg hc] at h
        exact ih h

theorem filter_lowStock_checkForChanges (st : CoordState) (deviceId : String)
    (options : JsonVal) (data : Snapshot) :
    ((checkForChanges st (some deviceId) options data).2).filter Event.isLowStock =
      lowStockEvents deviceId (jget data.shop "shop_name")
        (jgetInt options "stock_threshold" 5) data.listings := by
  simp only [checkForChanges]
  rw [List.filter_append, List.filter_append, filter_lowStock_lowStockEvents]
  split_ifs <;> simp [Event.isLowStock]

end Etsy
namespace Etsy

/-- C3: A `new_order` event fires in a change-detection run exactly when
`transactions_count` strictly exceeds the stored previous count and that
previous count was nonzero, firing once with delta = current − previous;
`new_review` obeys the same rule over `shop.review_count`, carrying the
delta and the current average rating; with previous counters at their
zero defaults (first successful cycle) neither fires; and the stored
counters are set to the current values on every run regardless. -/
theorem change_detection_counter_events (st : CoordState) (deviceId : String)
    (options : JsonVal) (data : Snapshot) :
    ((checkForChanges st (some deviceId) options data).2.filter Event.isNewOrder =
      if data.transactions_count > st.prev_transactions_count ∧
          st.prev_transactions_count > 0 then
        [Event.newOrder deviceId (jget data.shop "shop_name")
          (data.transactions_count - st.prev_transactions_count)]
      else [])
  ∧ ((checkForChanges st (some deviceId) options data).2.filter Event.isNewReview =
      if jgetInt data.shop "review_count" 0 > st.prev_review_count ∧
          st.prev_review_count > 0 then
        [Event.newReview deviceId (jget data.shop "shop_name")
          (jgetInt data.shop "review_count" 0 - st.prev_review_count)
          (jgetD data.shop "review_average" (.num 0))]
      else [])
  ∧ (st.prev_transactions_count = 0 → st.prev_review_count = 0 →
      (checkForChanges st (some deviceId) options data).2.filter Event.isNewOrder = [] ∧
      (checkForChanges st (some deviceId) options data).2.filter Event.isNewReview = [])
  ∧ (checkForChanges st (some deviceId) options data).1.prev_transactions_count =
      data.transactions_count
  ∧ (checkForChanges st (some deviceId) options data).1.prev_review_count =
      jgetInt data.shop "review_count" 0 := by
  have hord : (checkForChanges st (some deviceId) options data).2.filter Event.isNewOrder =
      if data.transactions_count > st.prev_transactions_count ∧
          st.prev_transactions_count > 0 then
        [Event.newOrder deviceId (jget data.shop "shop_name")
          (data.transactions_count - st.prev_transactions_count)]
      else [] := by
    simp only [checkForChanges]
    rw [List.filter_append, List.filter_append, filter_newOrder_lowStockEvents]
    split_ifs <;> simp [Event.isNewOrder, Event.isNewReview]
  have hrev : (checkForChanges st (some deviceId) options data).2.filter Event.isNewReview =
      if jgetInt data.shop "review_count" 0 > st.prev_review_count ∧
          st.prev_review_count > 0 then
        [Event.newReview deviceId (jget data.shop "shop_name")
          (jgetInt data.shop "review_count" 0 - st.prev_review_count)
          (jgetD data.shop "review_average" (.num 0))]
      else [] := by
    simp only [checkForChanges]
    rw [List.filter_append, List.filter_append, filter_newReview_lowStockEvents]
    split_ifs <;> simp [Event.isNewOrder, Event.isNewReview]
  refine ⟨hord, hrev, ?_, ?_, ?_⟩
  · intro h0 hr
    constructor
    · simp [hord, h0, lt_irrefl]
    · simp [hrev, hr, lt_irrefl]
  · simp [checkForChanges]
  · simp [checkForChanges]

/-- Witness for C3: with previous counters (2, 4) and current (10, 6),
one `new_order` with delta 8 and one `new_review` with delta 2 fire and
the counters update; from the zero initial state, nothing fires. -/
theorem change_detection_counter_events_witness :
    ((checkForChanges samplePrevState (some "dev") sampleOptions sampleData).2.filter
        Event.isNewOrder = [Event.newOrder "dev" (.str "TestShop") 8])
  ∧ ((checkForChanges samplePrevState (some "dev") sampleOptions sampleData).2.filter
        Event.isNewReview = [Event.newReview "dev" (.str "TestShop") 2 (.num 5)])
  ∧ (checkForChanges samplePrevState (some "dev") sampleOptions
        sampleData).1.prev_transactions_count = 10
  ∧ ((checkForChanges initialCoordState (some "dev") sampleOptions sampleData).2.filter
        Event.isNewOrder = [])
  ∧ ((checkForChanges initialCoordState (some "dev") sampleOptions sampleData).2.filter
        Event.isNewReview = []) := by
  have h := change_detection_counter_events samplePrevState "dev" sampleOptions sampleData
  have h0 := change_detection_counter_events initialCoordState "dev" sampleOptions sampleData
  refine ⟨?_, ?_, ?_, (h0.2.2.1 rfl rfl).1, (h0.2.2.1 rfl rfl).2⟩
  · rw [h.1]; rfl
  · rw [h.2.1]; rfl
  · rw [h.2.2.2.1]; rfl

/-- C4: In a change-detection run, the `low_stock` events are exactly one
per listing whose quantity is in `(0, stock_threshold]` (threshold from
the options record, default 5 when absent), in listing order; every
fired `low_stock` event has positive quantity at most its threshold (so
a quantity-0 listing never fires); and the low-stock events do not
depend on the previous counters, so a qualifying listing re-fires on
every run over the same listings. -/
theorem low_stock_event_rule (st : CoordState) (deviceId : String)
    (options : JsonVal) (data : Snapshot) :
    ((checkForChanges st (some deviceId) options data).2.filter Event.isLowStock =
      (data.listings.filter (lowStockQualifies (jgetInt options "stock_threshold" 5))).map
        (fun l => Event.lowStock deviceId (jget data.shop "shop_name")
          (jget l "listing_id") (jget l "title") (jgetInt l "quantity" 0)
          (jgetInt options "stock_threshold" 5)))
  ∧ (∀ (d' : String) (s' lid t : JsonVal) (q θ' : Int),
      Event.lowStock d' s' lid t q θ' ∈ (checkForChanges st (some deviceId) options data).2 →
      0 < q ∧ q ≤ θ')
  ∧ (∀ st' : CoordState,
      (checkForChanges st' (some deviceId) options data).2.filter Event.isLowStock =
      (checkForChanges st (some deviceId) options data).2.filter Event.isLowStock)
  ∧ (∀ opts : JsonVal, jhasKey opts "stock_threshold" = false →
      jgetInt opts "stock_threshold" 5 = 5) := by
  refine ⟨?_, ?_, ?_, ?_⟩
  · rw [filter_lowStock_checkForChanges, lowStockEvents_eq_filterMap]
  · intro d' s' lid t q θ' hmem
    simp only [checkForChanges] at hmem
    rcases List.mem_append.mp hmem with hor | hs
    · rcases List.mem_append.mp hor with ho | hr
      · revert ho; split_ifs <;> intro ho <;> simp at ho
      · revert hr; split_ifs <;> intro hr <;> simp at hr
    · exact mem_lowStockEvents_bounds _ _ _ _ _ _ _ _ _ _ hs
  · intro st'
    rw [filter_lowStock_checkForChanges, filter_lowStock_checkForChanges]
  · intro opts h
    exact jgetInt_of_not_hasKey _ _ _ h

/-- Witness for C4: with threshold 5 and listings of quantity 3, 0 and 9,
exactly the quantity-3 listing fires; the default threshold is 5 on an
empty options record. -/
theorem low_stock_event_rule_witness :
    ((checkForChanges samplePrevState (some "dev") sampleOptions sampleData).2.filter
        Event.isLowStock =
      [Event.lowStock "dev" (.str "TestShop") (.num 11) (.str "Low") 3 5])
  ∧ jgetInt (JsonVal.obj []) "stock_threshold" 5 = 5 := by
  have h := low_stock_event_rule samplePrevState "dev" sampleOptions sampleData
  refine ⟨?_, h.2.2.2 (.obj []) rfl⟩
  rw [h.1]; rfl

end Etsy
namespace Etsy

theorem retryFetchStep_error (attempts : Nat → Except FetchError Snapshot)
    (jitter : Nat → ℚ) (st : CoordState) (e : FetchError)
    (h : (fetchWithRetry attempts jitter st.retry_count).result = .error e) :
    retryFetchStep attempts jitter st =
      ({ st with retry_count := (fetchWithRetry attempts jitter st.retry_count).retry_count },
       .error e) := by
  unfold retryFetchStep
  dsimp only
  rw [h]

theorem retryFetchStep_ok (attempts : Nat → Except FetchError Snapshot)
    (jitter : Nat → ℚ) (st : CoordState) (d : Snapshot)
    (h : (fetchWithRetry attempts jitter st.retry_count).result = .ok d) :
    retryFetchStep attempts jitter st =
      ({ st with retry_count := (fetchWithRetry attempts jitter st.retry_count).retry_count,
                 last_successful_data := some d },
       .ok d) := by
  unfold retryFetchStep
  dsimp only
  rw [h]

/-- C1: Cache-fallback law: when a successful snapshot `S0` is cached and
the retry-wrapped fetch of a cycle fails with a non-auth error whose
message classifies as temporary, the cycle publishes exactly `S0`,
increments `consecutive_failures` by exactly 1, leaves the cache at
`S0`, and fires no events (change detection does not run). -/
theorem cache_fallback_law (st : CoordState) (S0 : Snapshot) (device : Option String)
    (options : JsonVal) (attempts : Nat → Except FetchError Snapshot) (jitter : Nat → ℚ)
    (e : FetchError)
    (hS0 : st.last_successful_data = some S0)
    (hfail : (fetchWithRetry attempts jitter st.retry_count).result = .error e)
    (hnotauth : e.isAuth = false)
    (htrans : isTransientMsg e.msg = true) :
    updateCycle st device options attempts jitter =
      ({ st with retry_count := (fetchWithRetry attempts jitter st.retry_count).retry_count,
                 consecutive_failures := st.consecutive_failures + 1 },
       .ok S0, [])
  ∧ (updateCycle st device options attempts jitter).1.last_successful_data = some S0 := by
  have hmain : updateCycle st device options attempts jitter =
      ({ st with retry_count := (fetchWithRetry attempts jitter st.retry_count).retry_count,
                 consecutive_failures := st.consecutive_failures + 1 },
       .ok S0, []) := by
    unfold updateCycle asyncUpdateData
    rw [retryFetchStep_error attempts jitter st e hfail]
    dsimp only
    simp [hnotauth, htrans, hS0]
  exact ⟨hmain, by rw [hmain]; exact hS0⟩

/-- Witness for C1: every attempt rate-limited from a cached state;
retries exhaust into a temporary-classified `UpdateFailed`, and the
cycle republishes the cached snapshot with `consecutive_failures` 1. -/
theorem cache_fallback_law_witness :
    updateCycle cachedState none sampleOptions alwaysRateLimited zeroJitter =
      ({ retry_count := 5, consecutive_failures := 1,
         last_successful_data := some sampleSnapshot,
         prev_transactions_count := 0, prev_review_count := 0 },
       .ok sampleSnapshot, []) := by
  rw [(cache_fallback_law cachedState sampleSnapshot none sampleOptions alwaysRateLimited
        zeroJitter (.updateFailed retryExhaustedMsg (some sampleRateLimitErr))
        rfl rfl rfl (by decide)).1]
  rfl

end Etsy
namespace Etsy

/-- C5 (amended): RetryState bookkeeping: on a successful cycle
`retry_count` and `consecutive_failures` reset to 0 and the cache is
overwritten with the new snapshot; on a failed cycle that is not a
`ConfigEntryAuthFailed`, `consecutive_failures` increments by exactly 1
and the cache is untouched; on a `ConfigEntryAuthFailed` cycle the error
propagates with `consecutive_failures` NOT incremented (the only state
change is the retry counter) and the cache untouched. -/
theorem retry_state_bookkeeping (st : CoordState) (device : Option String)
    (options : JsonVal) (attempts : Nat → Except FetchError Snapshot) (jitter : Nat → ℚ) :
    (∀ d, (fetchWithRetry attempts jitter st.retry_count).result = .ok d →
      (updateCycle st device options attempts jitter).1.retry_count = 0 ∧
      (updateCycle st device options attempts jitter).1.consecutive_failures = 0 ∧
      (updateCycle st device options attempts jitter).1.last_successful_data = some d)
  ∧ (∀ e, (fetchWithRetry attempts jitter st.retry_count).result = .error e →
      e.isAuth = false →
      (updateCycle st device options attempts jitter).1.consecutive_failures =
        st.consecutive_failures + 1 ∧
      (updateCycle st device options attempts jitter).1.last_successful_data =
        st.last_successful_data)
  ∧ (∀ e, (fetchWithRetry attempts jitter st.retry_count).result = .error e →
      e.isAuth = true →
      (updateCycle st device options attempts jitter).1 =
        { st with retry_count := (fetchWithRetry attempts jitter st.retry_count).retry_count } ∧
      (updateCycle st device options attempts jitter).2.1 = .error e) := by
  refine ⟨?_, ?_, ?_⟩
  · intro d hok
    unfold updateCycle asyncUpdateData
    rw [retryFetchStep_ok attempts jitter st d hok]
    dsimp only
    exact ⟨rfl, rfl, rfl⟩
  · intro e herr hnotauth
    unfold updateCycle asyncUpdateData
    rw [retryFetchStep_error attempts jitter st e herr]
    dsimp only
    rw [if_neg (by simp [hnotauth])]
    by_cases ht : isTransientMsg e.msg
    · rw [if_pos ht]
      cases hl : st.last_successful_data with
      | none => simp [hl]
      | some cached => simp [hl]
    · rw [if_neg ht]
      simp
  · intro e herr hauth
    unfold updateCycle asyncUpdateData
    rw [retryFetchStep_error attempts jitter st e herr]
    dsimp only
    rw [if_pos (by simp [hauth])]
    exact ⟨rfl, rfl⟩

/-- Witness for C5: a successful cycle resets both counters and stores
the snapshot; an exhausted-rate-limit cycle increments
`consecutive_failures` from 0 to 1 and keeps the cache. -/
theorem retry_state_bookkeeping_witness :
    ((updateCycle cachedState none sampleOptions threeRateLimitsThenOk zeroJitter).1.retry_count
        = 0
      ∧ (updateCycle cachedState none sampleOptions threeRateLimitsThenOk
          zeroJitter).1.consecutive_failures = 0
      ∧ (updateCycle cachedState none sampleOptions threeRateLimitsThenOk
          zeroJitter).1.last_successful_data = some sampleSnapshot)
  ∧ ((updateCycle initialCoordState none sampleOptions alwaysRateLimited
        zeroJitter).1.consecutive_failures = initialCoordState.consecutive_failures + 1
      ∧ (updateCycle initialCoordState none sampleOptions alwaysRateLimited
          zeroJitter).1.last_successful_data = initialCoordState.last_successful_data) :=
  ⟨(retry_state_bookkeeping cachedState none sampleOptions threeRateLimitsThenOk
      zeroJitter).1 sampleSnapshot rfl,
   (retry_state_bookkeeping initialCoordState none sampleOptions alwaysRateLimited
      zeroJitter).2.1 (.updateFailed retryExhaustedMsg (some sampleRateLimitErr)) rfl rfl⟩

/-- Counterexample for C5 as stated: a cycle failing with
`ConfigEntryAuthFailed` is a failed cycle (the error is reported), yet
`consecutive_failures` stays 0 instead of incrementing by 1. -/
theorem retry_state_bookkeeping_counterexample :
    (updateCycle cachedState none sampleOptions alwaysAuthFailed zeroJitter).2.1 =
      .error sampleAuthErr
  ∧ (updateCycle cachedState none sampleOptions alwaysAuthFailed
      zeroJitter).1.consecutive_failures = 0
  ∧ ¬ ((updateCycle cachedState none sampleOptions alwaysAuthFailed
      zeroJitter).1.consecutive_failures = cachedState.consecutive_failures + 1) := by
  refine ⟨rfl, rfl, ?_⟩
  intro h
  exact absurd h (by decide)

end Etsy
namespace Etsy

/-- C2: Retry governor: a failure classified as rate-limiting on 0-based
attempt `a`, with an attempt remaining of the maximum 5, sleeps once for
`baseDelay * 2^a + jitter` (which lies in
`[baseDelay * 2^a, 1.1 * baseDelay * 2^a)` given the jitter draw's
range) and then continues from attempt `a + 1`; any other failure
propagates immediately with no sleeps; five rate-limited attempts raise
the retry-exhausted `UpdateFailed` chained from the last error after 4
sleeps; and three rate-limited attempts followed by a success yield
exactly 3 delayed retries and then the successful result. -/
theorem retry_governor (attempts : Nat → Except FetchError Snapshot) (jitter : Nat → ℚ)
    (rc0 : Nat)
    (hj : ∀ a, 0 ≤ jitter a ∧ jitter a < baseDelay * 2 ^ a * (1 / 10)) :
    (∀ fuel attempt rc lastErr e, attempts attempt = .error e →
      isRateLimitMsg e.msg = true → attempt + 1 < maxRetries →
      fetchWithRetryGo attempts jitter (fuel + 1) attempt rc lastErr =
        ⟨(fetchWithRetryGo attempts jitter fuel (attempt + 1) (attempt + 1) (some e)).result,
         (baseDelay * 2 ^ attempt + jitter attempt) ::
           (fetchWithRetryGo attempts jitter fuel (attempt + 1) (attempt + 1) (some e)).delays,
         (fetchWithRetryGo attempts jitter fuel (attempt + 1) (attempt + 1) (some e)).retry_count⟩
      ∧ baseDelay * 2 ^ attempt ≤ baseDelay * 2 ^ attempt + jitter attempt
      ∧ baseDelay * 2 ^ attempt + jitter attempt < 11 / 10 * (baseDelay * 2 ^ attempt))
  ∧ (∀ fuel attempt rc lastErr e, attempts attempt = .error e →
      isRateLimitMsg e.msg = false →
      fetchWithRetryGo attempts jitter (fuel + 1) attempt rc lastErr = ⟨.error e, [], rc⟩)
  ∧ (∀ e0 e1 e2 e3 e4,
      attempts 0 = .error e0 → isRateLimitMsg e0.msg = true →
      attempts 1 = .error e1 → isRateLimitMsg e1.msg = true →
      attempts 2 = .error e2 → isRateLimitMsg e2.msg = true →
      attempts 3 = .error e3 → isRateLimitMsg e3.msg = true →
      attempts 4 = .error e4 → isRateLimitMsg e4.msg = true →
      fetchWithRetry attempts jitter rc0 =
        ⟨.error (.updateFailed retryExhaustedMsg (some e4)),
         [baseDelay * 2 ^ 0 + jitter 0, baseDelay * 2 ^ 1 + jitter 1,
          baseDelay * 2 ^ 2 + jitter 2, baseDelay * 2 ^ 3 + jitter 3], 5⟩)
  ∧ (∀ e0 e1 e2 d3,
      attempts 0 = .error e0 → isRateLimitMsg e0.msg = true →
      attempts 1 = .error e1 → isRateLimitMsg e1.msg = true →
      attempts 2 = .error e2 → isRateLimitMsg e2.msg = true →
      attempts 3 = .ok d3 →
      fetchWithRetry attempts jitter rc0 =
        ⟨.ok d3,
         [baseDelay * 2 ^ 0 + jitter 0, baseDelay * 2 ^ 1 + jitter 1,
          baseDelay * 2 ^ 2 + jitter 2], 3⟩) := by
  refine ⟨?_, ?_, ?_, ?_⟩
  · intro fuel attempt rc lastErr e h hrl hlt
    refine ⟨?_, ?_, ?_⟩
    · simp only [fetchWithRetryGo, h, hrl, if_true]
      rw [if_pos hlt]
    · have := (hj attempt).1
      linarith
    · have := (hj attempt).2
      linarith
  · intro fuel attempt rc lastErr e h hrl
    simp only [fetchWithRetryGo, h, hrl, Bool.false_eq_true, if_false]
  · intro e0 e1 e2 e3 e4 h0 hrl0 h1 hrl1 h2 hrl2 h3 hrl3 h4 hrl4
    simp only [fetchWithRetry, maxRetries, fetchWithRetryGo,
      h0, hrl0, h1, hrl1, h2, hrl2, h3, hrl3, h4, hrl4]
    norm_num
  · intro e0 e1 e2 d3 h0 hrl0 h1 hrl1 h2 hrl2 h3
    simp only [fetchWithRetry, maxRetries, fetchWithRetryGo,
      h0, hrl0, h1, hrl1, h2, hrl2, h3]
    norm_num

end Etsy
namespace Etsy

/-- Witness for C2: with zero jitter draws, three rate-limited attempts
then a success sleep exactly 1, 2, 4 seconds and return the snapshot;
five rate-limited attempts sleep 1, 2, 4, 8 and raise the exhaustion
error chained from the last rate-limit error; a non-rate-limit error
propagates with no sleeps and an untouched retry counter. -/
theorem retry_governor_witness :
    fetchWithRetry threeRateLimitsThenOk zeroJitter 0 = ⟨.ok sampleSnapshot, [1, 2, 4], 3⟩
  ∧ fetchWithRetry alwaysRateLimited zeroJitter 0 =
      ⟨.error (.updateFailed retryExhaustedMsg (some sampleRateLimitErr)), [1, 2, 4, 8], 5⟩
  ∧ fetchWithRetryGo alwaysAuthFailed zeroJitter (4 + 1) 0 7 none =
      ⟨.error sampleAuthErr, [], 7⟩ := by
  have hj : ∀ a, (0:ℚ) ≤ zeroJitter a ∧ zeroJitter a < baseDelay * 2 ^ a * (1 / 10) :=
    fun a => ⟨le_refl 0, by unfold zeroJitter baseDelay; positivity⟩
  refine ⟨?_, ?_, ?_⟩
  · rw [(retry_governor threeRateLimitsThenOk zeroJitter 0 hj).2.2.2 sampleRateLimitErr
      sampleRateLimitErr sampleRateLimitErr sampleSnapshot rfl (by decide) rfl (by decide)
      rfl (by decide) rfl]
    norm_num [baseDelay, zeroJitter]
  · rw [(retry_governor alwaysRateLimited zeroJitter 0 hj).2.2.1 sampleRateLimitErr
      sampleRateLimitErr sampleRateLimitErr sampleRateLimitErr sampleRateLimitErr
      rfl (by decide) rfl (by decide) rfl (by decide) rfl (by decide) rfl (by decide)]
    norm_num [baseDelay, zeroJitter]
  · exact (retry_governor alwaysAuthFailed zeroJitter 0 hj).2.1 4 0 7 none sampleAuthErr
      rfl (by decide)

end Etsy
namespace Etsy

/-- C6 (amended): Failure classification: in direct mode a 401 on the
shop fetch raises `ConfigEntryAuthFailed`, but a 401 on the listings or
transactions fetch is covered by the generic >= 400 case and surfaces as
a transport `UpdateFailed`; in direct mode any >= 400 status not
otherwise classified on any of the three fetches fails the cycle with a
transport error, and likewise a non-200 on the proxy shop fetch; but a
non-200 on the proxy listings or transactions fetch does NOT fail the
cycle — it is swallowed into empty results and the cycle completes
successfully. -/
theorem http_failure_classification :
    (∀ (env : DirectEnv) (now : String), env.shopResp.status = 401 →
      fetchDirect env now =
        .error (.authFailed "Authentication failed. Please re-authenticate."))
  ∧ (∀ (env : DirectEnv) (now : String), env.shopResp.status = 200 →
      400 ≤ env.listingsResp.status → env.listingsResp.status ≠ 429 →
      fetchDirect env now =
        .error (.updateFailed
          ("Error fetching data from Etsy API: " ++ (statusError env.listingsResp).msg)
          (some (statusError env.listingsResp))))
  ∧ (∀ (env : DirectEnv) (now : String), env.shopResp.status = 200 →
      env.listingsResp.status = 200 →
      400 ≤ env.transactionsResp.status → env.transactionsResp.status ≠ 429 →
      fetchDirect env now =
        .error (.updateFailed
          ("Error fetching data from Etsy API: " ++ (statusError env.transactionsResp).msg)
          (some (statusError env.transactionsResp))))
  ∧ (∀ (env : DirectEnv) (now : String),
      400 ≤ env.shopResp.status → env.shopResp.status ≠ 401 → env.shopResp.status ≠ 429 →
      fetchDirect env now =
        .error (.updateFailed
          ("Error fetching data from Etsy API: " ++ (statusError env.shopResp).msg)
          (some (statusError env.shopResp))))
  ∧ (∀ (env : ProxyEnv) (now : String),
      env.shopInfoResp.status ≠ 200 → env.shopInfoResp.status ≠ 429 →
      fetchViaProxy env now =
        .error (.updateFailed
          ("Failed to fetch data via proxy: " ++
            ("Failed to get shop info: " ++ env.shopInfoResp.text)) none))
  ∧ (∀ (env : ProxyEnv) (now : String), env.shopInfoResp.status = 200 →
      env.listingsResp.status ≠ 200 →
      fetchViaProxy env now =
        .ok { shop := env.shopInfoResp.body, listings := [], listings_count := 0,
              transactions := jgetArr (fetchTransactionsProxy env.transactionsResp) "results",
              transactions_count :=
                Int.ofNat (jgetArr (fetchTransactionsProxy env.transactionsResp)
                  "results").length,
              last_updated := now })
  ∧ (∀ (env : ProxyEnv) (now : String), env.shopInfoResp.status = 200 →
      env.transactionsResp.status ≠ 200 →
      fetchViaProxy env now =
        .ok { shop := env.shopInfoResp.body,
              listings := jgetArr (fetchListingsProxy env.listingsResp) "results",
              listings_count := jgetInt (fetchListingsProxy env.listingsResp) "count" 0,
              transactions := [], transactions_count := 0,
              last_updated := now }) := by
  refine ⟨?_, ?_, ?_, ?_, ?_, ?_, ?_⟩
  · intro env now h
    simp [fetchDirect, fetchDirectBody, h, FetchError.isAuth]
  · intro env now hs hl4 hl429
    simp [fetchDirect, fetchDirectBody, hs, hl4, hl429, FetchError.isAuth, statusError,
      FetchError.msg]
  · intro env now hs hl ht4 ht429
    simp [fetchDirect, fetchDirectBody, hs, hl, ht4, ht429, FetchError.isAuth, statusError,
      FetchError.msg]
  · intro env now hs4 hs401 hs429
    simp [fetchDirect, fetchDirectBody, hs4, hs401, hs429, FetchError.isAuth, statusError,
      FetchError.msg]
  · intro env now hp hp429
    simp [fetchViaProxy, fetchViaProxyBody, fetchShopInfoProxy, hp, hp429, FetchError.msg]
  · intro env now hs hl
    simp [fetchViaProxy, fetchViaProxyBody, fetchShopInfoProxy, fetchListingsProxy, hs, hl,
      jgetArr, jgetD, jgetInt, jlookup]
  · intro env now hs ht
    simp [fetchViaProxy, fetchViaProxyBody, fetchShopInfoProxy, fetchTransactionsProxy, hs, ht,
      jgetArr, jgetD, jgetInt, jlookup]

end Etsy
namespace Etsy

/-- Witness for C6 (amended) at concrete inputs: a 401 shop response
raises the auth failure; a 500 shop response is a transport error; a
non-200 proxy listings response yields a successful cycle with empty
listings. -/
theorem http_failure_classification_witness :
    fetchDirect { sampleDirectEnvNoCount with shopResp := resp401 } "t" =
      .error (.authFailed "Authentication failed. Please re-authenticate.")
  ∧ fetchDirect { sampleDirectEnvNoCount with shopResp := resp500 } "t" =
      .error (.updateFailed
        ("Error fetching data from Etsy API: " ++ (statusError resp500).msg)
        (some (statusError resp500)))
  ∧ fetchViaProxy sampleProxyEnvListingsDown "t" =
      .ok { shop := sampleProxyEnvListingsDown.shopInfoResp.body, listings := [],
            listings_count := 0,
            transactions := jgetArr
              (fetchTransactionsProxy sampleProxyEnvListingsDown.transactionsResp) "results",
            transactions_count := Int.ofNat (jgetArr
              (fetchTransactionsProxy sampleProxyEnvListingsDown.transactionsResp)
              "results").length,
            last_updated := "t" } :=
  ⟨http_failure_classification.1 { sampleDirectEnvNoCount with shopResp := resp401 } "t" rfl,
   http_failure_classification.2.2.2.1 { sampleDirectEnvNoCount with shopResp := resp500 } "t"
     (by decide) (by decide) (by decide),
   http_failure_classification.2.2.2.2.2.1 sampleProxyEnvListingsDown "t" rfl (by decide)⟩

/-- Counterexample for C6 as stated: (a) a proxy-mode cycle whose
listings fetch returns HTTP 500 completes successfully with empty
listings instead of failing; (b) in direct mode a 401 on the listings
fetch surfaces as a transport `UpdateFailed`, not as the
authentication-expired failure. -/
theorem http_failure_classification_counterexample :
    fetchViaProxy sampleProxyEnvListingsDown "t" =
      .ok { shop := .obj [("shop_id", .num 1)], listings := [], transactions := [],
            listings_count := 0, transactions_count := 0, last_updated := "t" }
  ∧ fetchDirect sampleDirectEnv401Listings "t" =
      .error (.updateFailed "Error fetching data from Etsy API: 401, message=unauthorized"
        (some (.updateFailed "401, message=unauthorized" none))) :=
  ⟨rfl, rfl⟩

end Etsy
namespace Etsy

theorem fetchDirectBody_ok_shape (env : DirectEnv) (now : String) (s : Snapshot)
    (h : fetchDirectBody env now = .ok s) :
    s = { shop := normalizeShopPayload env.shopResp.body,
          listings := jgetArr env.listingsResp.body "results",
          transactions := jgetArr env.transactionsResp.body "results",
          listings_count := jgetInt env.listingsResp.body "count" 0,
          transactions_count := jgetInt env.transactionsResp.body "count" 0,
          last_updated := now } := by
  unfold fetchDirectBody at h
  dsimp only at h
  repeat' split at h
  all_goals first
    | (injection h with h'
       exact h'.symm)
    | injection h

theorem fetchDirect_ok_body_ok (env : DirectEnv) (now : String) (s : Snapshot)
    (h : fetchDirect env now = .ok s) :
    fetchDirectBody env now = .ok s := by
  unfold fetchDirect at h
  cases hb : fetchDirectBody env now with
  | ok d =>
      rw [hb] at h
      dsimp only at h
      injection h with h'
      rw [h']
  | error e =>
      rw [hb] at h
      dsimp only at h
      revert h
      split <;> intro h <;> exact absurd h (by simp)

/-- C7 (amended): In proxy mode `transactions_count` always equals the
number of delivered transactions (so in particular when the payload has
no count field); in direct mode `transactions_count` is the payload's
`count` field with default 0, so when the payload carries no count field
it is 0 — not the delivered length. -/
theorem transactions_count_fallback :
    (∀ (env : ProxyEnv) (now : String) (s : Snapshot), fetchViaProxy env now = .ok s →
      s.transactions_count = Int.ofNat s.transactions.length)
  ∧ (∀ (env : DirectEnv) (now : String) (s : Snapshot), fetchDirect env now = .ok s →
      s.transactions_count = jgetInt env.transactionsResp.body "count" 0)
  ∧ (∀ (env : DirectEnv) (now : String) (s : Snapshot), fetchDirect env now = .ok s →
      jhasKey env.transactionsResp.body "count" = false →
      s.transactions_count = 0) := by
  have hdir : ∀ (env : DirectEnv) (now : String) (s : Snapshot), fetchDirect env now = .ok s →
      s.transactions_count = jgetInt env.transactionsResp.body "count" 0 := by
    intro env now s h
    rw [fetchDirectBody_ok_shape env now s (fetchDirect_ok_body_ok env now s h)]
  refine ⟨?_, hdir, ?_⟩
  · intro env now s h
    cases hs : fetchShopInfoProxy env.shopInfoResp with
    | error e =>
        unfold fetchViaProxy fetchViaProxyBody at h
        rw [hs] at h
        dsimp only at h
        exact absurd h (by simp)
    | ok si =>
        unfold fetchViaProxy fetchViaProxyBody at h
        rw [hs] at h
        dsimp only at h
        injection h with h'
        rw [← h']
  · intro env now s h hnc
    rw [hdir env now s h]
    exact jgetInt_of_not_hasKey _ _ _ hnc

/-- Witness for C7 (amended): a successful proxy cycle has
`transactions_count = len(transactions)`; a successful direct cycle with
no `count` field in the transactions payload has `transactions_count`
0. -/
theorem transactions_count_fallback_witness :
    (∀ s : Snapshot, fetchViaProxy sampleProxyEnvListingsDown "t" = .ok s →
      s.transactions_count = Int.ofNat s.transactions.length) ∧
    (∀ s : Snapshot, fetchDirect sampleDirectEnvNoCount "t" = .ok s →
      s.transactions_count = 0) ∧
    jhasKey sampleDirectEnvNoCount.transactionsResp.body "count" = false :=
  ⟨fun s h => transactions_count_fallback.1 sampleProxyEnvListingsDown "t" s h,
   fun s h => transactions_count_fallback.2.2 sampleDirectEnvNoCount "t" s h rfl,
   rfl⟩

/-- Counterexample for C7 as stated: a successful direct-mode cycle whose
transactions payload delivers one transaction but carries no `count`
field publishes `transactions_count = 0`, not the delivered count 1. -/
theorem transactions_count_fallback_counterexample :
    fetchDirect sampleDirectEnvNoCount "t" =
      .ok { shop := .obj [("shop_id", .num 1)], listings := [],
            transactions := [.obj [("receipt_id", .num 5)]],
            listings_count := 0, transactions_count := 0, last_updated := "t" }
  ∧ jhasKey sampleDirectEnvNoCount.transactionsResp.body "count" = false
  ∧ jgetInt sampleDirectEnvNoCount.transactionsResp.body "count" 0 = 0
  ∧ (jgetArr sampleDirectEnvNoCount.transactionsResp.body "results").length = 1 :=
  ⟨rfl, rfl, rfl, rfl⟩

end Etsy
